import Mathlib

/-!
Shallow embedding of the Tomatobar Pomodoro timer backend
(`tomatobar_backend.py`): the timer state machine, the tick loop, the
command processor and the session-logging discipline.

Modelling conventions:
* Python `int` values (seconds remaining, counters, epoch timestamps) are
  embedded as `Int`.
* `time.time()` is external input; every operation that reads the clock
  takes an explicit `now : Int` argument.
* Durable side effects that the claims talk about are made explicit in the
  return value: each state-changing entry point returns a `StepResult`
  carrying the successor `TimerState`, the list of `SessionRecord` rows
  inserted into the sessions table by `_log_session`, and the list of
  warning-level log messages emitted.  Desktop notifications, sounds,
  info-level logging and status-file writes are fire-and-forget side
  effects with no influence on the timer state and are not modelled.
* `self.paused_state` is an attribute that `__init__` never sets (only
  `_pause` does), so it is embedded as `Option PomodoroState`, `none`
  meaning "not yet assigned"; code paths that would read it while unset
  (unreachable from the initial state) are modelled as leaving the state
  unchanged and writing nothing.
-/

namespace Tomatobar

/-- The five members of the `PomodoroState` enum. -/
inductive PomodoroState where
  | IDLE
  | WORK
  | SHORT_BREAK
  | LONG_BREAK
  | PAUSED
deriving DecidableEq

open PomodoroState

/-- The timer-relevant fields of the JSON configuration (`_load_config`).
Durations are minutes; `pomodoros_before_long_break` is the long-break
threshold. -/
structure Config where
  work_duration_minutes : Int
  short_break_duration_minutes : Int
  long_break_duration_minutes : Int
  pomodoros_before_long_break : Int
deriving DecidableEq

/-- A sane configuration: strictly positive durations and threshold, as in
the shipped default config (25/5/15 minutes, threshold 4).  With a
positive threshold, Python's `%` agrees with `Int.emod` on the
non-negative counter. -/
def Config.Valid (cfg : Config) : Prop :=
  0 < cfg.work_duration_minutes ∧ 0 < cfg.short_break_duration_minutes ∧
    0 < cfg.long_break_duration_minutes ∧ 0 < cfg.pomodoros_before_long_break

instance (cfg : Config) : Decidable cfg.Valid := by
  unfold Config.Valid
  infer_instance

/-- The default configuration written by `_load_config` when no config
file exists. -/
def default_config : Config :=
  { work_duration_minutes := 25
    short_break_duration_minutes := 5
    long_break_duration_minutes := 15
    pomodoros_before_long_break := 4 }

/-- One row of the `sessions` table (schema in `_setup_database`),
inserted by `_log_session`. -/
structure SessionRecord where
  start_time : Int
  end_time : Int
  type : String
  completed : Bool
  duration_actual_seconds : Int
  pomodoro_count_at_completion : Int
deriving DecidableEq

/-- The mutable state of `PomodoroTimer` (its `__init__` fields that the
state machine reads and writes). -/
structure TimerState where
  current_state : PomodoroState
  time_remaining_seconds : Int
  pomodoros_completed_in_cycle : Int
  session_start_timestamp : Option Int
  paused_state : Option PomodoroState
  paused_time_remaining : Int
deriving DecidableEq

/-- The state set up by `__init__`. -/
def initial_state : TimerState :=
  { current_state := IDLE
    time_remaining_seconds := 0
    pomodoros_completed_in_cycle := 0
    session_start_timestamp := none
    paused_state := none
    paused_time_remaining := 0 }

/-- Result of one entry point: successor state, session rows inserted,
warning-level log messages emitted. -/
structure StepResult where
  state : TimerState
  records : List SessionRecord
  warnings : List String
deriving DecidableEq

/-- A result that changes the state and emits nothing durable. -/
def pure_result (s : TimerState) : StepResult :=
  { state := s, records := [], warnings := [] }

/-- The list `[WORK, SHORT_BREAK, LONG_BREAK]` that `_process_command`
and the claims use to test for an active (counting-down) phase. -/
def active_states : List PomodoroState := [WORK, SHORT_BREAK, LONG_BREAK]

/-- `_log_session(completed)`: returns the row inserted into the sessions
table, if any.  No row is written when `session_start_timestamp is None`
or when the (possibly paused-from) state is not Work/ShortBreak/LongBreak. -/
def log_session (now : Int) (completed : Bool) (s : TimerState) :
    Option SessionRecord :=
  match s.session_start_timestamp with
  | none => none
  | some start =>
    let state := if s.current_state = PAUSED then s.paused_state
                 else some s.current_state
    let session_type : Option String :=
      match state with
      | some WORK => some "work"
      | some SHORT_BREAK => some "short_break"
      | some LONG_BREAK => some "long_break"
      | _ => none
    match session_type with
    | none => none
    | some t =>
      some { start_time := start
             end_time := now
             type := t
             completed := completed
             duration_actual_seconds := now - start
             pomodoro_count_at_completion := s.pomodoros_completed_in_cycle }

/-- `_start_work_session`. -/
def start_work_session (cfg : Config) (now : Int) (s : TimerState) :
    TimerState :=
  { s with current_state := WORK
           time_remaining_seconds := cfg.work_duration_minutes * 60
           session_start_timestamp := some now }

/-- `_start_break(is_long_break)`. -/
def start_break (cfg : Config) (now : Int) (is_long_break : Bool)
    (s : TimerState) : TimerState :=
  if is_long_break then
    { s with current_state := LONG_BREAK
             time_remaining_seconds := cfg.long_break_duration_minutes * 60
             session_start_timestamp := some now }
  else
    { s with current_state := SHORT_BREAK
             time_remaining_seconds := cfg.short_break_duration_minutes * 60
             session_start_timestamp := some now }

/-- `_pause`: snapshot the phase and remaining time, enter `PAUSED`, then
log the session so far as incomplete (the log call happens after the
state change, so `_log_session` reads the snapshot through `paused_state`). -/
def pause (now : Int) (s : TimerState) : StepResult :=
  if s.current_state ≠ PAUSED then
    let s1 := { s with paused_state := some s.current_state
                       paused_time_remaining := s.time_remaining_seconds
                       current_state := PAUSED }
    { state := s1, records := (log_session now false s1).toList, warnings := [] }
  else pure_result s

/-- `_resume`: restore the saved phase and remaining time and take a new
start timestamp. -/
def resume (now : Int) (s : TimerState) : StepResult :=
  if s.current_state = PAUSED then
    match s.paused_state with
    | some p =>
      pure_result { s with current_state := p
                           time_remaining_seconds := s.paused_time_remaining
                           session_start_timestamp := some now }
    | none => pure_result s
  else pure_result s

/-- `_complete_work_session(was_skipped)`: log the session
(`completed = not was_skipped`), increment the pomodoro counter, then
start a long break iff the incremented counter is divisible by the
threshold, otherwise a short break. -/
def complete_work_session (cfg : Config) (now : Int) (was_skipped : Bool)
    (s : TimerState) : StepResult :=
  let rec1 := log_session now (!was_skipped) s
  let s1 := { s with pomodoros_completed_in_cycle :=
                       s.pomodoros_completed_in_cycle + 1 }
  let s2 :=
    if s1.pomodoros_completed_in_cycle % cfg.pomodoros_before_long_break = 0
    then start_break cfg now true s1
    else start_break cfg now false s1
  { state := s2, records := rec1.toList, warnings := [] }

/-- `_complete_break_session(was_skipped)`: log the session
(`completed = not was_skipped`) and start a new work session. -/
def complete_break_session (cfg : Config) (now : Int) (was_skipped : Bool)
    (s : TimerState) : StepResult :=
  { state := start_work_session cfg now s
    records := (log_session now (!was_skipped) s).toList
    warnings := [] }

/-- `_skip_current_phase`: log the current session as incomplete, then —
from Work — delegate to `_complete_work_session(was_skipped=True)` (which
logs again), otherwise start a new work session. -/
def skip_current_phase (cfg : Config) (now : Int) (s : TimerState) :
    StepResult :=
  let rec1 := (log_session now false s).toList
  if s.current_state = WORK then
    let r := complete_work_session cfg now true s
    { state := r.state, records := rec1 ++ r.records, warnings := r.warnings }
  else
    { state := start_work_session cfg now s, records := rec1, warnings := [] }

/-- `_reset`: log the current session as incomplete when not idle, then
go to `IDLE` with zero remaining and no start timestamp. -/
def reset (now : Int) (s : TimerState) : StepResult :=
  let rec1 := if s.current_state ≠ IDLE then (log_session now false s).toList
              else []
  { state := { s with current_state := IDLE
                      time_remaining_seconds := 0
                      session_start_timestamp := none }
    records := rec1
    warnings := [] }

/-- `_restart_cycle`: log the current session as incomplete when not
idle, zero the pomodoro counter, and start a fresh work session. -/
def restart_cycle (cfg : Config) (now : Int) (s : TimerState) : StepResult :=
  let rec1 := if s.current_state ≠ IDLE then (log_session now false s).toList
              else []
  let s1 := { s with pomodoros_completed_in_cycle := 0 }
  { state := start_work_session cfg now s1, records := rec1, warnings := [] }

/-- The seven verbs `_process_command` recognises. -/
def known_commands : List String :=
  ["start", "pause", "resume", "skip", "reset", "restart_cycle", "get_status"]

/-- `_process_command(command)`: dispatch on the verb with the same guards
as the Python `if`/`elif` chain; an unknown verb changes nothing and logs
one warning (`logger.warning(f"Unknown command: ...")`).  `get_status`
only rewrites the status file, a side effect outside the state. -/
def process_command (cfg : Config) (now : Int) (command : String)
    (s : TimerState) : StepResult :=
  if command = "start" then
    if s.current_state = IDLE then
      pure_result (start_work_session cfg now s)
    else if s.current_state = PAUSED then
      resume now s
    else pure_result s
  else if command = "pause" then
    if s.current_state ∈ active_states then pause now s else pure_result s
  else if command = "resume" then
    if s.current_state = PAUSED then resume now s else pure_result s
  else if command = "skip" then
    if s.current_state ∈ active_states then skip_current_phase cfg now s
    else pure_result s
  else if command = "reset" then
    reset now s
  else if command = "restart_cycle" then
    restart_cycle cfg now s
  else if command = "get_status" then
    pure_result s
  else
    { state := s, records := [], warnings := ["Unknown command: " ++ command] }

/-- One iteration of the `run` loop (a 1-second tick): do nothing while
`IDLE` or `PAUSED`; otherwise decrement while the remaining time is
positive, and when it is not, perform the natural-completion transition.
The status write every 5 seconds is a side effect outside the state. -/
def tick (cfg : Config) (now : Int) (s : TimerState) : StepResult :=
  if s.current_state ∈ [IDLE, PAUSED] then pure_result s
  else if s.time_remaining_seconds > 0 then
    pure_result { s with time_remaining_seconds :=
                           s.time_remaining_seconds - 1 }
  else if s.current_state = WORK then
    complete_work_session cfg now false s
  else if s.current_state = SHORT_BREAK ∨ s.current_state = LONG_BREAK then
    complete_break_session cfg now false s
  else pure_result s

/-- `_handle_exit` (SIGINT/SIGTERM): when neither `IDLE` nor `PAUSED`,
log the in-flight session as incomplete; the state itself is not changed
before the process exits. -/
def handle_exit (now : Int) (s : TimerState) : StepResult :=
  if s.current_state ∈ [IDLE, PAUSED] then pure_result s
  else { state := s, records := (log_session now false s).toList, warnings := [] }

/-- The three event sources that drive the engine: the 1-second tick, a
command line read from the FIFO, and a termination signal. -/
inductive Event where
  | tick (now : Int)
  | command (c : String) (now : Int)
  | shutdown (now : Int)
deriving DecidableEq

/-- Full effect of one event. -/
def step_result (cfg : Config) (e : Event) (s : TimerState) : StepResult :=
  match e with
  | Event.tick now => tick cfg now s
  | Event.command c now => process_command cfg now c s
  | Event.shutdown now => handle_exit now s

/-- State part of one event. -/
def step (cfg : Config) (e : Event) (s : TimerState) : TimerState :=
  (step_result cfg e s).state

/-- States reachable from `__init__` under any interleaving of ticks,
commands and shutdown signals. -/
inductive Reachable (cfg : Config) : TimerState → Prop where
  | init : Reachable cfg initial_state
  | next : ∀ {s : TimerState} (e : Event), Reachable cfg s →
      Reachable cfg (step cfg e s)

/-- Run the tick loop once per timestamp in `nows`. -/
def ticks (cfg : Config) (nows : List Int) (s : TimerState) : TimerState :=
  match nows with
  | [] => s
  | now :: rest => ticks cfg rest (tick cfg now s).state

/-- `e` is a `restart_cycle` command. -/
def is_restart_cycle : Event → Bool
  | Event.command c _ => c == "restart_cycle"
  | _ => false

/-- Both sides of the non-negativity invariant that the tick loop and
every command preserve. -/
def time_nonneg_inv (s : TimerState) : Prop :=
  0 ≤ s.time_remaining_seconds ∧ 0 ≤ s.paused_time_remaining

/-! ### Concrete states used by counterexamples and witnesses -/

/-- A started Work session mid-countdown. -/
def work_state : TimerState :=
  { current_state := WORK
    time_remaining_seconds := 10
    pomodoros_completed_in_cycle := 0
    session_start_timestamp := some 100
    paused_state := none
    paused_time_remaining := 0 }

/-- A started Work session with one second left. -/
def work_state_one : TimerState :=
  { work_state with time_remaining_seconds := 1 }

/-- A started Work session whose countdown has reached zero. -/
def work_state_zero : TimerState :=
  { work_state with time_remaining_seconds := 0 }

/-- A started short break whose countdown has reached zero. -/
def break_state_zero : TimerState :=
  { work_state with
    current_state := SHORT_BREAK
    time_remaining_seconds := 0
    pomodoros_completed_in_cycle := 1 }

/-! ### Dispatch lemmas for the command verbs -/

theorem process_command_start (cfg : Config) (now : Int) (s : TimerState) :
    process_command cfg now "start" s =
      if s.current_state = IDLE then pure_result (start_work_session cfg now s)
      else if s.current_state = PAUSED then resume now s
      else pure_result s := rfl

theorem process_command_pause (cfg : Config) (now : Int) (s : TimerState) :
    process_command cfg now "pause" s =
      if s.current_state ∈ active_states then pause now s else pure_result s := rfl

theorem process_command_resume (cfg : Config) (now : Int) (s : TimerState) :
    process_command cfg now "resume" s =
      if s.current_state = PAUSED then resume now s else pure_result s := rfl

theorem process_command_skip (cfg : Config) (now : Int) (s : TimerState) :
    process_command cfg now "skip" s =
      if s.current_state ∈ active_states then skip_current_phase cfg now s
      else pure_result s := rfl

theorem process_command_reset (cfg : Config) (now : Int) (s : TimerState) :
    process_command cfg now "reset" s = reset now s := rfl

theorem process_command_restart (cfg : Config) (now : Int) (s : TimerState) :
    process_command cfg now "restart_cycle" s = restart_cycle cfg now s := rfl

theorem process_command_get_status (cfg : Config) (now : Int) (s : TimerState) :
    process_command cfg now "get_status" s = pure_result s := rfl

theorem process_command_unknown (cfg : Config) (now : Int) (c : String)
    (s : TimerState) (h : c ∉ known_commands) :
    process_command cfg now c s =
      { state := s, records := [],
        warnings := ["Unknown command: " ++ c] } := by
  simp only [known_commands, List.mem_cons, List.not_mem_nil, or_false,
    not_or] at h
  obtain ⟨h1, h2, h3, h4, h5, h6, h7⟩ := h
  unfold process_command
  rw [if_neg h1, if_neg h2, if_neg h3, if_neg h4, if_neg h5, if_neg h6,
    if_neg h7]

/-! ### Effect of each operation on the pomodoro counter -/

theorem start_work_session_count (cfg : Config) (now : Int) (s : TimerState) :
    (start_work_session cfg now s).pomodoros_completed_in_cycle =
      s.pomodoros_completed_in_cycle := rfl

theorem start_break_count (cfg : Config) (now : Int) (b : Bool) (s : TimerState) :
    (start_break cfg now b s).pomodoros_completed_in_cycle =
      s.pomodoros_completed_in_cycle := by
  unfold start_break
  split <;> rfl

theorem pause_count (now : Int) (s : TimerState) :
    (pause now s).state.pomodoros_completed_in_cycle =
      s.pomodoros_completed_in_cycle := by
  unfold pause
  split <;> rfl

theorem resume_count (now : Int) (s : TimerState) :
    (resume now s).state.pomodoros_completed_in_cycle =
      s.pomodoros_completed_in_cycle := by
  unfold resume
  split
  · match s.paused_state with
    | some p => rfl
    | none => rfl
  · rfl

theorem complete_work_session_count (cfg : Config) (now : Int) (b : Bool)
    (s : TimerState) :
    (complete_work_session cfg now b s).state.pomodoros_completed_in_cycle =
      s.pomodoros_completed_in_cycle + 1 := by
  unfold complete_work_session
  dsimp only
  split
  · rw [start_break_count]
  · rw [start_break_count]

theorem complete_break_session_count (cfg : Config) (now : Int) (b : Bool)
    (s : TimerState) :
    (complete_break_session cfg now b s).state.pomodoros_completed_in_cycle =
      s.pomodoros_completed_in_cycle := rfl

theorem skip_count_work (cfg : Config) (now : Int) (s : TimerState)
    (h : s.current_state = WORK) :
    (skip_current_phase cfg now s).state.pomodoros_completed_in_cycle =
      s.pomodoros_completed_in_cycle + 1 := by
  unfold skip_current_phase
  rw [if_pos h]
  exact complete_work_session_count cfg now true s

theorem skip_count_break (cfg : Config) (now : Int) (s : TimerState)
    (h : ¬ s.current_state = WORK) :
    (skip_current_phase cfg now s).state.pomodoros_completed_in_cycle =
      s.pomodoros_completed_in_cycle := by
  unfold skip_current_phase
  rw [if_neg h]
  rfl

theorem reset_count (now : Int) (s : TimerState) :
    (reset now s).state.pomodoros_completed_in_cycle =
      s.pomodoros_completed_in_cycle := rfl

theorem restart_cycle_count (cfg : Config) (now : Int) (s : TimerState) :
    (restart_cycle cfg now s).state.pomodoros_completed_in_cycle = 0 := rfl

theorem handle_exit_state (now : Int) (s : TimerState) :
    (handle_exit now s).state = s := by
  unfold handle_exit
  split <;> rfl

/-! ### Tick reduction lemmas -/

theorem tick_idle_paused (cfg : Config) (now : Int) (s : TimerState)
    (h : s.current_state = IDLE ∨ s.current_state = PAUSED) :
    tick cfg now s = pure_result s := by
  unfold tick
  rw [if_pos]
  rcases h with h | h <;> simp [h]

theorem tick_decrement (cfg : Config) (now : Int) (s : TimerState)
    (ha : s.current_state ∈ active_states) (h : 0 < s.time_remaining_seconds) :
    tick cfg now s =
      pure_result { s with time_remaining_seconds :=
                             s.time_remaining_seconds - 1 } := by
  unfold tick
  rw [if_neg, if_pos h]
  simp only [active_states, List.mem_cons, List.mem_singleton,
    List.not_mem_nil, or_false] at ha ⊢
  rcases ha with h' | h' | h' <;> simp [h']

theorem tick_work_zero (cfg : Config) (now : Int) (s : TimerState)
    (hw : s.current_state = WORK) (h0 : s.time_remaining_seconds ≤ 0) :
    tick cfg now s = complete_work_session cfg now false s := by
  have h0' : ¬ s.time_remaining_seconds > 0 := not_lt.mpr h0
  unfold tick
  rw [if_neg, if_neg h0', if_pos hw]
  simp [hw]

theorem tick_break_zero (cfg : Config) (now : Int) (s : TimerState)
    (hb : s.current_state = SHORT_BREAK ∨ s.current_state = LONG_BREAK)
    (h0 : s.time_remaining_seconds ≤ 0) :
    tick cfg now s = complete_break_session cfg now false s := by
  have h0' : ¬ s.time_remaining_seconds > 0 := not_lt.mpr h0
  have hw : ¬ s.current_state = WORK := by
    rcases hb with h | h <;> simp [h]
  unfold tick
  rw [if_neg, if_neg h0', if_neg hw, if_pos hb]
  rcases hb with h | h <;> simp [h]

theorem ticks_paused (cfg : Config) (nows : List Int) (s : TimerState)
    (h : s.current_state = PAUSED) : ticks cfg nows s = s := by
  induction nows generalizing s with
  | nil => rfl
  | cons now rest ih =>
      unfold ticks
      rw [tick_idle_paused cfg now s (Or.inr h)]
      exact ih s h

theorem step_tick (cfg : Config) (now : Int) (s : TimerState) :
    step cfg (Event.tick now) s = (tick cfg now s).state := rfl

theorem step_command (cfg : Config) (c : String) (now : Int) (s : TimerState) :
    step cfg (Event.command c now) s = (process_command cfg now c s).state := rfl

theorem step_shutdown (cfg : Config) (now : Int) (s : TimerState) :
    step cfg (Event.shutdown now) s = (handle_exit now s).state := rfl

/-- From a Work phase, `_skip_current_phase` reaches exactly the state that
`_complete_work_session(was_skipped=True)` produces. -/
theorem skip_state_work (cfg : Config) (now : Int) (s : TimerState)
    (h : s.current_state = WORK) :
    (skip_current_phase cfg now s).state =
      (complete_work_session cfg now true s).state := by
  unfold skip_current_phase
  rw [if_pos h]

/-- Phase chosen by `_complete_work_session`: a long break exactly when the
incremented counter is divisible by the threshold, a short break otherwise. -/
theorem complete_work_session_phase (cfg : Config) (now : Int) (b : Bool)
    (s : TimerState) :
    ((complete_work_session cfg now b s).state.current_state = LONG_BREAK ↔
        (s.pomodoros_completed_in_cycle + 1) %
            cfg.pomodoros_before_long_break = 0) ∧
      ((complete_work_session cfg now b s).state.current_state = SHORT_BREAK ↔
        ¬ (s.pomodoros_completed_in_cycle + 1) %
            cfg.pomodoros_before_long_break = 0) := by
  unfold complete_work_session
  dsimp only
  split_ifs with h <;> simp [start_break, h]

/-! ### Claim theorems -/

/-- C1 (refuted by the code, a code bug): the claim says every phase exit
of a started Work/Break interval writes exactly ONE session record.  But
`_skip_current_phase` first logs the session as incomplete and then, for a
Work phase, delegates to `_complete_work_session(was_skipped=True)`, which
logs the same session again: a `skip` issued in a started Work phase
inserts TWO (incomplete) rows for one session attempt.  This theorem
evaluates the code at that failing input. -/
theorem claim_C1_skip_from_work_writes_two_records :
    (process_command default_config 200 "skip" work_state).records.length = 2 ∧
      ∀ r ∈ (process_command default_config 200 "skip" work_state).records,
        r.completed = false := by
  decide

/-- C2 counterexample: the tick that decrements a Work phase from 1 to 0
ends with the state still in the WORK phase at 0 seconds remaining — the
natural-completion transition is NOT performed within the same tick, so
the state does remain at an active phase with 0 seconds remaining across a
tick boundary (the transition only happens on the following tick). -/
theorem claim_C2_counterexample :
    (tick default_config 50 work_state_one).state.current_state = WORK ∧
      (tick default_config 50 work_state_one).state.time_remaining_seconds = 0 :=
  ⟨rfl, rfl⟩

/-- C2 (amended): when an active phase's `timeRemainingSeconds` has
reached 0, the engine performs the natural-completion transition on the
NEXT tick, not within the tick that reached 0: a tick on an active phase
with 0 remaining moves to the successor phase (Work goes to the break
chosen by the counter rule, a break goes to Work) with the new phase's
full, positive duration — so an active phase stays at 0 remaining for at
most one tick interval. -/
theorem claim_C2_amended (cfg : Config) (hv : cfg.Valid) (now : Int)
    (s : TimerState) (ha : s.current_state ∈ active_states)
    (h0 : s.time_remaining_seconds = 0) :
    ((tick cfg now s).state.current_state ∈ active_states ∧
        0 < (tick cfg now s).state.time_remaining_seconds) ∧
      (s.current_state = WORK →
        ((tick cfg now s).state.current_state = LONG_BREAK ↔
          (s.pomodoros_completed_in_cycle + 1) %
              cfg.pomodoros_before_long_break = 0)) ∧
      ((s.current_state = SHORT_BREAK ∨ s.current_state = LONG_BREAK) →
        (tick cfg now s).state.current_state = WORK) := by
  obtain ⟨hwd, hsd, hld, htd⟩ := hv
  have hw60 : 0 < cfg.work_duration_minutes * 60 := by positivity
  have hs60 : 0 < cfg.short_break_duration_minutes * 60 := by positivity
  have hl60 : 0 < cfg.long_break_duration_minutes * 60 := by positivity
  simp only [active_states, List.mem_cons, List.not_mem_nil, or_false] at ha
  rcases ha with h | h | h
  · rw [tick_work_zero cfg now s h h0.le]
    refine ⟨⟨?_, ?_⟩, fun _ => (complete_work_session_phase cfg now false s).1,
      fun hb => ?_⟩
    · rcases complete_work_session_phase cfg now false s with ⟨hL, hS⟩
      by_cases hc : (s.pomodoros_completed_in_cycle + 1) %
          cfg.pomodoros_before_long_break = 0
      · simp [active_states, hL.mpr hc]
      · simp [active_states, hS.mpr hc]
    · unfold complete_work_session
      dsimp only
      split_ifs
      · simpa [start_break] using hl60
      · simpa [start_break] using hs60
    · rcases hb with hb | hb <;> rw [h] at hb <;> exact absurd hb (by decide)
  · rw [tick_break_zero cfg now s (Or.inl h) h0.le]
    refine ⟨⟨?_, ?_⟩, fun hww => ?_, fun _ => rfl⟩
    · simp [complete_break_session, start_work_session, active_states]
    · exact hw60
    · rw [h] at hww
      exact absurd hww (by decide)
  · rw [tick_break_zero cfg now s (Or.inr h) h0.le]
    refine ⟨⟨?_, ?_⟩, fun hww => ?_, fun _ => rfl⟩
    · simp [complete_break_session, start_work_session, active_states]
    · exact hw60
    · rw [h] at hww
      exact absurd hww (by decide)

/-- Witness for the amended C2 at the default configuration and a Work
state whose countdown has reached 0. -/
theorem claim_C2_amended_witness :
    ((tick default_config 0 work_state_zero).state.current_state ∈
          active_states ∧
        0 < (tick default_config 0 work_state_zero).state.time_remaining_seconds) ∧
      ((tick default_config 0 work_state_zero).state.current_state =
          LONG_BREAK ↔
        (work_state_zero.pomodoros_completed_in_cycle + 1) %
            default_config.pomodoros_before_long_break = 0) :=
  ⟨(claim_C2_amended default_config (by decide) 0 work_state_zero (by decide)
      (by decide)).1,
    (claim_C2_amended default_config (by decide) 0 work_state_zero (by decide)
      (by decide)).2.1 rfl⟩

/-- C3 counterexample: the claim says a Work session ended by `skip` does
not increment `pomodorosCompletedInCycle`; but `skip` from Work goes
through `_complete_work_session`, which increments unconditionally — here
the counter goes from 0 to 1 on a skip. -/
theorem claim_C3_counterexample :
    work_state.pomodoros_completed_in_cycle = 0 ∧
      (process_command default_config 200 "skip"
          work_state).state.pomodoros_completed_in_cycle = 1 :=
  ⟨rfl, rfl⟩

/-- C3 (amended): every Work session that completes naturally (countdown
reaching 0 in the Work phase) increments `pomodorosCompletedInCycle` by
exactly 1; a Work session ended by `skip` ALSO increments it by exactly 1;
a Work session ended by `reset` does not increment the counter. -/
theorem claim_C3_amended (cfg : Config) (now : Int) (s : TimerState)
    (hw : s.current_state = WORK) :
    (s.time_remaining_seconds = 0 →
        (tick cfg now s).state.pomodoros_completed_in_cycle =
          s.pomodoros_completed_in_cycle + 1) ∧
      (process_command cfg now "skip" s).state.pomodoros_completed_in_cycle =
        s.pomodoros_completed_in_cycle + 1 ∧
      (process_command cfg now "reset" s).state.pomodoros_completed_in_cycle =
        s.pomodoros_completed_in_cycle := by
  refine ⟨fun h0 => ?_, ?_, ?_⟩
  · rw [tick_work_zero cfg now s hw h0.le]
    exact complete_work_session_count cfg now false s
  · rw [process_command_skip, if_pos (by simp [active_states, hw])]
    exact skip_count_work cfg now s hw
  · rw [process_command_reset]
    exact reset_count now s

/-- Witness for the amended C3 at a concrete Work state. -/
theorem claim_C3_amended_witness :
    (tick default_config 0 work_state_zero).state.pomodoros_completed_in_cycle =
        work_state_zero.pomodoros_completed_in_cycle + 1 ∧
      (process_command default_config 0 "skip"
          work_state_zero).state.pomodoros_completed_in_cycle =
        work_state_zero.pomodoros_completed_in_cycle + 1 ∧
      (process_command default_config 0 "reset"
          work_state_zero).state.pomodoros_completed_in_cycle =
        work_state_zero.pomodoros_completed_in_cycle :=
  ⟨(claim_C3_amended default_config 0 work_state_zero rfl).1 rfl,
    (claim_C3_amended default_config 0 work_state_zero rfl).2⟩

/-- C5: for every Work-session exit that advances to a break — natural
completion (tick with the countdown at 0) or `skip` — the engine chooses
the long break iff `pomodorosCompletedInCycle mod pomodorosBeforeLongBreak`
is 0 evaluated AFTER the increment, and the short break otherwise.  The
`cfg.Valid` hypothesis records that Python's `%` (which would raise on a
zero threshold) agrees with `Int.emod` here. -/
theorem claim_C5_break_selection (cfg : Config) (_hv : cfg.Valid) (now : Int)
    (s : TimerState) (hw : s.current_state = WORK) :
    (s.time_remaining_seconds = 0 →
        (((tick cfg now s).state.current_state = LONG_BREAK ↔
            (s.pomodoros_completed_in_cycle + 1) %
                cfg.pomodoros_before_long_break = 0) ∧
          ((tick cfg now s).state.current_state = SHORT_BREAK ↔
            ¬ (s.pomodoros_completed_in_cycle + 1) %
                cfg.pomodoros_before_long_break = 0))) ∧
      (((process_command cfg now "skip" s).state.current_state = LONG_BREAK ↔
          (s.pomodoros_completed_in_cycle + 1) %
              cfg.pomodoros_before_long_break = 0) ∧
        ((process_command cfg now "skip" s).state.current_state = SHORT_BREAK ↔
          ¬ (s.pomodoros_completed_in_cycle + 1) %
              cfg.pomodoros_before_long_break = 0)) := by
  constructor
  · intro h0
    rw [tick_work_zero cfg now s hw h0.le]
    exact complete_work_session_phase cfg now false s
  · rw [process_command_skip, if_pos (by simp [active_states, hw]),
      skip_state_work cfg now s hw]
    exact complete_work_session_phase cfg now true s

/-- A started Work state with three pomodoros already completed and the
countdown at zero: its natural completion is the 4th of the cycle. -/
def work_state_three : TimerState :=
  { work_state with
    pomodoros_completed_in_cycle := 3
    time_remaining_seconds := 0 }

/-- Witness for C5: with the default threshold 4, the 4th completion
selects the long break (both for natural completion and for skip). -/
theorem claim_C5_witness :
    (((tick default_config 7 work_state_three).state.current_state =
          LONG_BREAK ↔
        (work_state_three.pomodoros_completed_in_cycle + 1) %
            default_config.pomodoros_before_long_break = 0) ∧
      ((tick default_config 7 work_state_three).state.current_state =
          SHORT_BREAK ↔
        ¬ (work_state_three.pomodoros_completed_in_cycle + 1) %
            default_config.pomodoros_before_long_break = 0)) ∧
      (((process_command default_config 7 "skip"
            work_state_three).state.current_state = LONG_BREAK ↔
          (work_state_three.pomodoros_completed_in_cycle + 1) %
              default_config.pomodoros_before_long_break = 0) ∧
        ((process_command default_config 7 "skip"
            work_state_three).state.current_state = SHORT_BREAK ↔
          ¬ (work_state_three.pomodoros_completed_in_cycle + 1) %
              default_config.pomodoros_before_long_break = 0)) :=
  ⟨(claim_C5_break_selection default_config (by decide) 7 work_state_three
      rfl).1 rfl,
    (claim_C5_break_selection default_config (by decide) 7 work_state_three
      rfl).2⟩

/-- The state after a `pause` command at time `now1` followed by one tick
per entry of `nows`. -/
def after_pause_ticks (cfg : Config) (now1 : Int) (nows : List Int)
    (s : TimerState) : TimerState :=
  ticks cfg nows (process_command cfg now1 "pause" s).state

/-- C6: from any active phase (Work, ShortBreak or LongBreak) and any
remaining time, `pause` followed — after any number of intervening ticks —
by `resume` (or by `start`, which resumes when paused) restores exactly the
`timeRemainingSeconds` captured at pause time and the phase that was
paused from. -/
theorem claim_C6_pause_resume (cfg : Config) (now1 now2 : Int)
    (nows : List Int) (s : TimerState)
    (ha : s.current_state ∈ active_states) :
    ((process_command cfg now2 "resume"
            (after_pause_ticks cfg now1 nows s)).state.current_state =
          s.current_state ∧
        (process_command cfg now2 "resume"
            (after_pause_ticks cfg now1 nows s)).state.time_remaining_seconds =
          s.time_remaining_seconds) ∧
      ((process_command cfg now2 "start"
            (after_pause_ticks cfg now1 nows s)).state.current_state =
          s.current_state ∧
        (process_command cfg now2 "start"
            (after_pause_ticks cfg now1 nows s)).state.time_remaining_seconds =
          s.time_remaining_seconds) := by
  have hnp : ¬ s.current_state = PAUSED := by
    simp only [active_states, List.mem_cons, List.not_mem_nil, or_false] at ha
    rcases ha with h | h | h <;> simp [h]
  have hp : (process_command cfg now1 "pause" s).state =
      { s with
        paused_state := some s.current_state
        paused_time_remaining := s.time_remaining_seconds
        current_state := PAUSED } := by
    rw [process_command_pause, if_pos ha]
    unfold pause
    rw [if_pos hnp]
  have hap : after_pause_ticks cfg now1 nows s =
      { s with
        paused_state := some s.current_state
        paused_time_remaining := s.time_remaining_seconds
        current_state := PAUSED } := by
    unfold after_pause_ticks
    rw [hp, ticks_paused]
    rfl
  rw [hap]
  exact ⟨⟨rfl, rfl⟩, rfl, rfl⟩

/-- Witness for C6: pause a Work session with 10 seconds left, run three
ticks, then resume (or start): phase and remaining time are restored. -/
theorem claim_C6_witness :
    ((process_command default_config 9 "resume"
            (after_pause_ticks default_config 0 [1, 2, 3]
              work_state)).state.current_state = work_state.current_state ∧
        (process_command default_config 9 "resume"
            (after_pause_ticks default_config 0 [1, 2, 3]
              work_state)).state.time_remaining_seconds =
          work_state.time_remaining_seconds) ∧
      ((process_command default_config 9 "start"
            (after_pause_ticks default_config 0 [1, 2, 3]
              work_state)).state.current_state = work_state.current_state ∧
        (process_command default_config 9 "start"
            (after_pause_ticks default_config 0 [1, 2, 3]
              work_state)).state.time_remaining_seconds =
          work_state.time_remaining_seconds) :=
  claim_C6_pause_resume default_config 0 9 [1, 2, 3] work_state (by decide)

/-- C8: from every state — Idle, Paused, or any active phase —
`restart_cycle` zeroes `pomodorosCompletedInCycle` regardless of its prior
value and immediately moves to the Work phase with the full configured
work duration remaining. -/
theorem claim_C8_restart_cycle (cfg : Config) (now : Int) (s : TimerState) :
    (process_command cfg now "restart_cycle"
          s).state.pomodoros_completed_in_cycle = 0 ∧
      (process_command cfg now "restart_cycle" s).state.current_state =
        WORK ∧
      (process_command cfg now "restart_cycle"
          s).state.time_remaining_seconds =
        cfg.work_duration_minutes * 60 :=
  ⟨rfl, rfl, rfl⟩

/-- C9: a command string outside the seven known verbs leaves the entire
timer state unchanged, writes no session record, and produces exactly one
warning-level log event (`_process_command` is total on arbitrary strings
— the unknown-verb path only logs, it cannot raise). -/
theorem claim_C9_unknown_command (cfg : Config) (now : Int) (c : String)
    (s : TimerState) (h : c ∉ known_commands) :
    process_command cfg now c s =
      { state := s, records := [],
        warnings := ["Unknown command: " ++ c] } :=
  process_command_unknown cfg now c s h

/-- Witness for C9 at the unknown verb "frobnicate". -/
theorem claim_C9_witness :
    process_command default_config 3 "frobnicate" work_state =
      { state := work_state, records := [],
        warnings := ["Unknown command: " ++ "frobnicate"] } :=
  claim_C9_unknown_command default_config 3 "frobnicate" work_state
    (by decide)

/-- C10: a `start` command received in an active phase (Work, ShortBreak
or LongBreak) matches no branch of `_process_command`'s `start` handler,
so it is a no-op: the whole state (phase, remaining time, counter, start
timestamp, pause snapshot) is unchanged and no session record is written. -/
theorem claim_C10_start_while_active (cfg : Config) (now : Int)
    (s : TimerState) (ha : s.current_state ∈ active_states) :
    process_command cfg now "start" s =
      { state := s, records := [], warnings := [] } := by
  have hni : ¬ s.current_state = IDLE := by
    simp only [active_states, List.mem_cons, List.not_mem_nil, or_false] at ha
    rcases ha with h | h | h <;> simp [h]
  have hnp : ¬ s.current_state = PAUSED := by
    simp only [active_states, List.mem_cons, List.not_mem_nil, or_false] at ha
    rcases ha with h | h | h <;> simp [h]
  rw [process_command_start, if_neg hni, if_neg hnp]
  rfl

/-- Witness for C10 at a mid-countdown Work state. -/
theorem claim_C10_witness :
    process_command default_config 4 "start" work_state =
      { state := work_state, records := [], warnings := [] } :=
  claim_C10_start_while_active default_config 4 work_state (by decide)

/-- Every event other than a `restart_cycle` command either leaves the
pomodoro counter unchanged or — only when leaving the Work phase —
increments it by exactly one. -/
theorem step_count_cases (cfg : Config) (e : Event) (s : TimerState)
    (h : is_restart_cycle e = false) :
    (step cfg e s).pomodoros_completed_in_cycle =
        s.pomodoros_completed_in_cycle ∨
      ((step cfg e s).pomodoros_completed_in_cycle =
          s.pomodoros_completed_in_cycle + 1 ∧ s.current_state = WORK) := by
  cases e with
  | tick now =>
      rw [step_tick]
      unfold tick
      split_ifs with h1 h2 h3 h4
      · left; rfl
      · left; rfl
      · right; exact ⟨complete_work_session_count cfg now false s, h3⟩
      · left; exact complete_break_session_count cfg now false s
      · left; rfl
  | command c now =>
      simp only [is_restart_cycle, beq_eq_false_iff_ne, ne_eq] at h
      rw [step_command]
      by_cases hc1 : c = "start"
      · subst hc1
        rw [process_command_start]
        split_ifs with h1 h2
        · left; rfl
        · left; exact resume_count now s
        · left; rfl
      by_cases hc2 : c = "pause"
      · subst hc2
        rw [process_command_pause]
        split_ifs with h1
        · left; exact pause_count now s
        · left; rfl
      by_cases hc3 : c = "resume"
      · subst hc3
        rw [process_command_resume]
        split_ifs with h1
        · left; exact resume_count now s
        · left; rfl
      by_cases hc4 : c = "skip"
      · subst hc4
        rw [process_command_skip]
        split_ifs with h1
        · by_cases hw : s.current_state = WORK
          · right; exact ⟨skip_count_work cfg now s hw, hw⟩
          · left; exact skip_count_break cfg now s hw
        · left; rfl
      by_cases hc5 : c = "reset"
      · subst hc5
        rw [process_command_reset]
        left; exact reset_count now s
      by_cases hc7 : c = "get_status"
      · subst hc7
        rw [process_command_get_status]
        left; rfl
      have hmem : c ∉ known_commands := by
        simp only [known_commands, List.mem_cons, List.not_mem_nil, or_false,
          not_or]
        exact ⟨hc1, hc2, hc3, hc4, hc5, h, hc7⟩
      rw [process_command_unknown cfg now c s hmem]
      left; rfl
  | shutdown now =>
      left
      rw [step_shutdown, handle_exit_state]

/-- C4: `pomodorosCompletedInCycle` is incremented exactly once for every
Work session that ends by natural completion or by skip; it is never
incremented when a ShortBreak or LongBreak session ends by any means (all
events other than `restart_cycle` leave it unchanged from a break phase);
every event either preserves it or increments it by one except
`restart_cycle`, the only operation that resets it, and `restart_cycle`
sets it to 0. -/
theorem claim_C4_counter_discipline (cfg : Config) :
    (∀ (s : TimerState) (e : Event),
        (s.current_state = SHORT_BREAK ∨ s.current_state = LONG_BREAK) →
        is_restart_cycle e = false →
        (step cfg e s).pomodoros_completed_in_cycle =
          s.pomodoros_completed_in_cycle) ∧
      (∀ (s : TimerState) (e : Event), is_restart_cycle e = false →
        (step cfg e s).pomodoros_completed_in_cycle =
            s.pomodoros_completed_in_cycle ∨
          (step cfg e s).pomodoros_completed_in_cycle =
            s.pomodoros_completed_in_cycle + 1) ∧
      (∀ (s : TimerState) (now : Int), s.current_state = WORK →
        s.time_remaining_seconds ≤ 0 →
        (step cfg (Event.tick now) s).pomodoros_completed_in_cycle =
          s.pomodoros_completed_in_cycle + 1) ∧
      (∀ (s : TimerState) (now : Int), s.current_state = WORK →
        (step cfg (Event.command "skip" now) s).pomodoros_completed_in_cycle =
          s.pomodoros_completed_in_cycle + 1) ∧
      (∀ (s : TimerState) (now : Int),
        (step cfg (Event.command "restart_cycle" now)
            s).pomodoros_completed_in_cycle = 0) := by
  refine ⟨fun s e hb h => ?_, fun s e h => (step_count_cases cfg e s h).imp id
    And.left, fun s now hw h0 => ?_, fun s now hw => ?_, fun s now => ?_⟩
  · rcases step_count_cases cfg e s h with h1 | ⟨h1, hwk⟩
    · exact h1
    · rcases hb with hb | hb <;> rw [hb] at hwk <;> exact absurd hwk (by decide)
  · rw [step_tick, tick_work_zero cfg now s hw h0]
    exact complete_work_session_count cfg now false s
  · rw [step_command, process_command_skip,
      if_pos (by simp [active_states, hw])]
    exact skip_count_work cfg now s hw
  · rw [step_command, process_command_restart]
    exact restart_cycle_count cfg now s

/-- Witness for C4: a skip from a break leaves the counter at 1, a natural
Work completion raises it from 0 to 1, and `restart_cycle` zeroes it. -/
theorem claim_C4_witness :
    (step default_config (Event.command "skip" 5)
          break_state_zero).pomodoros_completed_in_cycle =
        break_state_zero.pomodoros_completed_in_cycle ∧
      (step default_config (Event.tick 5)
          work_state_zero).pomodoros_completed_in_cycle =
        work_state_zero.pomodoros_completed_in_cycle + 1 ∧
      (step default_config (Event.command "restart_cycle" 5)
          work_state).pomodoros_completed_in_cycle = 0 :=
  ⟨(claim_C4_counter_discipline default_config).1 break_state_zero
      (Event.command "skip" 5) (Or.inl rfl) (by decide),
    (claim_C4_counter_discipline default_config).2.2.1 work_state_zero 5 rfl
      (by decide),
    (claim_C4_counter_discipline default_config).2.2.2.2 work_state 5⟩

/-! ### Preservation of the non-negativity invariant -/

theorem inv_start_work (cfg : Config) (now : Int) (s : TimerState)
    (hw60 : (0:Int) ≤ cfg.work_duration_minutes * 60)
    (h2 : 0 ≤ s.paused_time_remaining) :
    time_nonneg_inv (start_work_session cfg now s) :=
  ⟨hw60, h2⟩

theorem inv_start_break (cfg : Config) (now : Int) (b : Bool) (s : TimerState)
    (hs60 : (0:Int) ≤ cfg.short_break_duration_minutes * 60)
    (hl60 : (0:Int) ≤ cfg.long_break_duration_minutes * 60)
    (h2 : 0 ≤ s.paused_time_remaining) :
    time_nonneg_inv (start_break cfg now b s) := by
  unfold start_break
  cases b
  · exact ⟨hs60, h2⟩
  · exact ⟨hl60, h2⟩

theorem inv_complete_work (cfg : Config) (now : Int) (b : Bool)
    (s : TimerState)
    (hs60 : (0:Int) ≤ cfg.short_break_duration_minutes * 60)
    (hl60 : (0:Int) ≤ cfg.long_break_duration_minutes * 60)
    (h2 : 0 ≤ s.paused_time_remaining) :
    time_nonneg_inv (complete_work_session cfg now b s).state := by
  unfold complete_work_session
  dsimp only
  split_ifs with hmod
  · exact inv_start_break cfg now true _ hs60 hl60 h2
  · exact inv_start_break cfg now false _ hs60 hl60 h2

theorem inv_complete_break (cfg : Config) (now : Int) (b : Bool)
    (s : TimerState) (hw60 : (0:Int) ≤ cfg.work_duration_minutes * 60)
    (h2 : 0 ≤ s.paused_time_remaining) :
    time_nonneg_inv (complete_break_session cfg now b s).state :=
  ⟨hw60, h2⟩

theorem inv_pause (now : Int) (s : TimerState)
    (h1 : 0 ≤ s.time_remaining_seconds) (h2 : 0 ≤ s.paused_time_remaining) :
    time_nonneg_inv (pause now s).state := by
  unfold pause
  split_ifs with h
  · exact ⟨h1, h1⟩
  · exact ⟨h1, h2⟩

theorem inv_resume (now : Int) (s : TimerState)
    (h1 : 0 ≤ s.time_remaining_seconds) (h2 : 0 ≤ s.paused_time_remaining) :
    time_nonneg_inv (resume now s).state := by
  unfold resume
  split_ifs with h
  · cases hp : s.paused_state with
    | none => exact ⟨h1, h2⟩
    | some p => exact ⟨h2, h2⟩
  · exact ⟨h1, h2⟩

theorem inv_skip (cfg : Config) (now : Int) (s : TimerState)
    (hw60 : (0:Int) ≤ cfg.work_duration_minutes * 60)
    (hs60 : (0:Int) ≤ cfg.short_break_duration_minutes * 60)
    (hl60 : (0:Int) ≤ cfg.long_break_duration_minutes * 60)
    (h2 : 0 ≤ s.paused_time_remaining) :
    time_nonneg_inv (skip_current_phase cfg now s).state := by
  unfold skip_current_phase
  split_ifs with h
  · exact inv_complete_work cfg now true s hs60 hl60 h2
  · exact ⟨hw60, h2⟩

theorem inv_reset (now : Int) (s : TimerState)
    (h2 : 0 ≤ s.paused_time_remaining) :
    time_nonneg_inv (reset now s).state :=
  ⟨le_refl 0, h2⟩

theorem inv_restart (cfg : Config) (now : Int) (s : TimerState)
    (hw60 : (0:Int) ≤ cfg.work_duration_minutes * 60)
    (h2 : 0 ≤ s.paused_time_remaining) :
    time_nonneg_inv (restart_cycle cfg now s).state :=
  ⟨hw60, h2⟩

/-- Every event of a validly configured engine preserves non-negativity of
both remaining-time fields. -/
theorem step_preserves_nonneg (cfg : Config) (hv : cfg.Valid) (e : Event)
    (s : TimerState) (h : time_nonneg_inv s) :
    time_nonneg_inv (step cfg e s) := by
  obtain ⟨h1, h2⟩ := h
  obtain ⟨hwd, hsd, hld, htd⟩ := hv
  have hw60 : (0:Int) ≤ cfg.work_duration_minutes * 60 :=
    mul_nonneg hwd.le (by norm_num)
  have hs60 : (0:Int) ≤ cfg.short_break_duration_minutes * 60 :=
    mul_nonneg hsd.le (by norm_num)
  have hl60 : (0:Int) ≤ cfg.long_break_duration_minutes * 60 :=
    mul_nonneg hld.le (by norm_num)
  cases e with
  | tick now =>
      rw [step_tick]
      unfold tick
      split_ifs with hip hpos hwrk hbrk
      · exact ⟨h1, h2⟩
      · refine ⟨?_, h2⟩
        show 0 ≤ s.time_remaining_seconds - 1
        omega
      · exact inv_complete_work cfg now false s hs60 hl60 h2
      · exact inv_complete_break cfg now false s hw60 h2
      · exact ⟨h1, h2⟩
  | command c now =>
      rw [step_command]
      by_cases hc1 : c = "start"
      · subst hc1
        rw [process_command_start]
        split_ifs with hs1 hs2
        · exact inv_start_work cfg now s hw60 h2
        · exact inv_resume now s h1 h2
        · exact ⟨h1, h2⟩
      by_cases hc2 : c = "pause"
      · subst hc2
        rw [process_command_pause]
        split_ifs with hs1
        · exact inv_pause now s h1 h2
        · exact ⟨h1, h2⟩
      by_cases hc3 : c = "resume"
      · subst hc3
        rw [process_command_resume]
        split_ifs with hs1
        · exact inv_resume now s h1 h2
        · exact ⟨h1, h2⟩
      by_cases hc4 : c = "skip"
      · subst hc4
        rw [process_command_skip]
        split_ifs with hs1
        · exact inv_skip cfg now s hw60 hs60 hl60 h2
        · exact ⟨h1, h2⟩
      by_cases hc5 : c = "reset"
      · subst hc5
        rw [process_command_reset]
        exact inv_reset now s h2
      by_cases hc6 : c = "restart_cycle"
      · subst hc6
        rw [process_command_restart]
        exact inv_restart cfg now s hw60 h2
      by_cases hc7 : c = "get_status"
      · subst hc7
        rw [process_command_get_status]
        exact ⟨h1, h2⟩
      have hmem : c ∉ known_commands := by
        simp only [known_commands, List.mem_cons, List.not_mem_nil, or_false,
          not_or]
        exact ⟨hc1, hc2, hc3, hc4, hc5, hc6, hc7⟩
      rw [process_command_unknown cfg now c s hmem]
      exact ⟨h1, h2⟩
  | shutdown now =>
      rw [step_shutdown, handle_exit_state]
      exact ⟨h1, h2⟩

/-- Both remaining-time fields are non-negative in every reachable state. -/
theorem reachable_nonneg (cfg : Config) (hv : cfg.Valid) (s : TimerState)
    (h : Reachable cfg s) : time_nonneg_inv s := by
  induction h with
  | init => exact ⟨le_refl 0, le_refl 0⟩
  | next e hr ih => exact step_preserves_nonneg cfg hv e _ ih

/-- C7: in every reachable state `timeRemainingSeconds ≥ 0`; a tick in
the Idle or Paused phase changes nothing at all (in particular it does not
decrement), and a tick in an active phase with positive remaining time
decrements it by exactly one. -/
theorem claim_C7_tick_discipline (cfg : Config) (hv : cfg.Valid)
    (s : TimerState) :
    (Reachable cfg s → 0 ≤ s.time_remaining_seconds) ∧
      (∀ now : Int, s.current_state = IDLE ∨ s.current_state = PAUSED →
        (tick cfg now s).state = s) ∧
      (∀ now : Int, s.current_state ∈ active_states →
        0 < s.time_remaining_seconds →
        (tick cfg now s).state.time_remaining_seconds =
          s.time_remaining_seconds - 1) := by
  refine ⟨fun h => (reachable_nonneg cfg hv s h).1, fun now h => ?_,
    fun now ha hpos => ?_⟩
  · rw [tick_idle_paused cfg now s h]
    rfl
  · rw [tick_decrement cfg now s ha hpos]
    rfl

/-- Witness for C7 at the initial state under the default configuration. -/
theorem claim_C7_witness :
    (0 ≤ initial_state.time_remaining_seconds) ∧
      (tick default_config 0 initial_state).state = initial_state :=
  ⟨(claim_C7_tick_discipline default_config (by decide) initial_state).1
      Reachable.init,
    (claim_C7_tick_discipline default_config (by decide) initial_state).2.1 0
      (Or.inl rfl)⟩

end Tomatobar
